import Mathlib

/-!
Verification of the svg2pdf batch converter (src/convert.py) against its
specification. The program is a thin pipeline over two external tools
(a vector rasterizer and a raster image processor); we embed:

* the background-detection heuristic `detect_background_color`
  (convert.py lines 23-139) as a pure function over an explicit model of
  the parsed SVG root and of the rendering environment;
* the three variant pipelines `convert_centered`, `convert_stretched`,
  `convert_cropped` (lines 142-266) as command lists interpreted over an
  abstract image model, with the external binaries modelled as
  deterministic opaque functions bundled in a `Tools` record;
* the per-variant exception isolation of `process_svg` (lines 269-317)
  and the batch driver `main` (lines 320-347) over explicit outcome data.
-/

/-! ## String helpers

Python's `needle in haystack` substring test and `str.lower`.
-/

/-- Does the character list `needle` occur at the head of `hay`? -/
def startsWithLC : List Char → List Char → Bool
  | [], _ => true
  | _ :: _, [] => false
  | c :: cs, d :: ds => c == d && startsWithLC cs ds

/-- Does the character list `needle` occur anywhere inside `hay`?
Mirrors Python's `needle in hay` on strings. -/
def hasSubLC (needle : List Char) : List Char → Bool
  | [] => startsWithLC needle []
  | d :: ds => startsWithLC needle (d :: ds) || hasSubLC needle ds

/-- Python's `needle in hay` substring containment on strings. -/
def hasSub (hay needle : String) : Bool :=
  hasSubLC needle.data hay.data

/-- Python's `str.lower` (the strings scanned here are ASCII). -/
def toLowerStr (s : String) : String :=
  ⟨s.data.map Char.toLower⟩

/-! ## SVG document model

`xml.etree.ElementTree` view of the document as used by
`detect_background_color`: the root's attributes and the list of
namespaced `rect` descendants in document order. An absent attribute is
`none`; `Element.get(name, default)` is `Option.getD`.
-/

/-- Attributes of one `{http://www.w3.org/2000/svg}rect` element read by
the detector (convert.py lines 58-63). -/
structure SvgRect where
  x : Option String
  y : Option String
  width : Option String
  height : Option String
  fill : Option String
  style : Option String

/-- The SVG root element as read by the detector: the attributes
`viewport-fill`, `style`, `width`, `height`, and all namespaced rect
descendants found by `root.findall` in document order. -/
structure SvgRoot where
  viewportFill : Option String
  style : Option String
  width : Option String
  height : Option String
  rects : List SvgRect

/-- Python `any(t in s.lower() for t in tokens)` (convert.py lines 43-45,
72-79). -/
def colorToken (tokens : List String) (s : String) : Bool :=
  tokens.any (fun t => hasSub (toLowerStr s) t)

/-- Stage 1 (convert.py lines 41-46): the root's `viewport-fill`
attribute, defaulted to the empty string; a nonempty value is scanned for
black tokens, then white tokens; no token match falls through. -/
def checkViewportFill (vf : String) : Option String :=
  if vf == "" then none
  else if colorToken ["#000", "black", "rgb(0,0,0)"] vf then some "black"
  else if colorToken ["#fff", "white", "rgb(255,255,255)"] vf then some "white"
  else none

/-- Stage 2 (convert.py lines 49-54): if the root's `style` attribute
contains `background`, scan the whole style string for black tokens, then
white tokens; otherwise (or on no token match) fall through. -/
def checkStyle (style : String) : Option String :=
  if hasSub (toLowerStr style) "background" then
    if hasSub (toLowerStr style) "black" || hasSub (toLowerStr style) "#000" then
      some "black"
    else if hasSub (toLowerStr style) "white" || hasSub (toLowerStr style) "#fff" then
      some "white"
    else none
  else none

/-- convert.py line 66: `x in ['0', '0px', '']` for both coordinates,
after defaulting each to `'0'`. -/
def rectAtOrigin (r : SvgRect) : Bool :=
  (r.x.getD "0" == "0" || r.x.getD "0" == "0px" || r.x.getD "0" == "") &&
  (r.y.getD "0" == "0" || r.y.getD "0" == "0px" || r.y.getD "0" == "")

/-- convert.py lines 67-68: `'100%'` inside either dimension, or either
dimension equal to the corresponding root attribute (a comparison with an
absent root attribute is false, as `str == None` is in Python). -/
def rectFullSize (root : SvgRoot) (r : SvgRect) : Bool :=
  hasSub (r.width.getD "") "100%" || hasSub (r.height.getD "") "100%" ||
  (match root.width with
   | some w => r.width.getD "" == w
   | none => false) ||
  (match root.height with
   | some h => r.height.getD "" == h
   | none => false)

/-- Stage 3, one rect (convert.py lines 70-80): for a rect at the origin
of full size, a nonempty `fill` attribute is scanned for black then white
tokens; whether or not `fill` matched, a `style` attribute containing the
raw text `fill:` is scanned for `fill:`-prefixed black then white tokens;
no match moves on to the next rect. -/
def checkRect (root : SvgRoot) (r : SvgRect) : Option String :=
  if rectAtOrigin r && rectFullSize root r then
    if r.fill.getD "" != "" && colorToken ["#000", "black"] (r.fill.getD "") then
      some "black"
    else if r.fill.getD "" != "" && colorToken ["#fff", "white"] (r.fill.getD "") then
      some "white"
    else if hasSub (r.style.getD "") "fill:" &&
        colorToken ["fill:#000", "fill:black"] (r.style.getD "") then
      some "black"
    else if hasSub (r.style.getD "") "fill:" &&
        colorToken ["fill:#fff", "fill:white"] (r.style.getD "") then
      some "white"
    else none
  else none

/-- Stage 3, the loop over `root.findall('.//svg:rect')`
(convert.py lines 57-80): first rect that returns wins. -/
def checkRects (root : SvgRoot) : List SvgRect → Option String
  | [] => none
  | r :: rs =>
    match checkRect root r with
    | some c => some c
    | none => checkRects root rs

/-! ## Rendered preview model

The 100x100 PNG produced by the rasterizer for the sampling fallback
(convert.py lines 83-130), as seen through PIL: a mode flag and a pixel
grid of RGBA components.
-/

/-- One pixel as returned by `img.getpixel`: red, green, blue, alpha. -/
structure Pix where
  r : Nat
  g : Nat
  b : Nat
  a : Nat

/-- The preview raster: PIL mode (`isRGBA` is `img.mode == 'RGBA'`),
size, and pixel grid. -/
structure Preview where
  isRGBA : Bool
  width : Nat
  height : Nat
  pixel : Nat → Nat → Pix

/-- The four sampled corners, margin 2, in the order of convert.py
lines 104-109: `(m, m)`, `(w-m-1, m)`, `(m, h-m-1)`, `(w-m-1, h-m-1)`. -/
def cornerPixels (img : Preview) : List Pix :=
  [img.pixel 2 2,
   img.pixel (img.width - 3) 2,
   img.pixel 2 (img.height - 3),
   img.pixel (img.width - 3) (img.height - 3)]

/-- One iteration of the corner-classification loop (convert.py lines
114-122) over the running pair `(transparent_corners, dark_corners)`:
a corner is transparent when its alpha is below 128, else dark when its
mean channel brightness `(r+g+b)/3` is below 64, i.e. exactly when
`r+g+b < 192`. -/
def classifyCorner (acc : Nat × Nat) (p : Pix) : Nat × Nat :=
  if p.a < 128 then (acc.1 + 1, acc.2)
  else if p.r + p.g + p.b < 192 then (acc.1, acc.2 + 1)
  else acc

/-- The corner-classification loop of convert.py lines 111-122:
`(transparent_corners, dark_corners)`. -/
def cornerCounts (img : Preview) : Nat × Nat :=
  (cornerPixels img).foldl classifyCorner (0, 0)

/-- Stage 4 (convert.py lines 100-130): only an image in RGBA mode is
sampled; at least 3 transparent corners decide white, otherwise at least
3 dark corners decide black, otherwise fall through to the default. -/
def sampleCorners (img : Preview) : Option String :=
  match img.isRGBA with
  | true =>
    if 3 ≤ (cornerCounts img).1 then some "white"
    else if 3 ≤ (cornerCounts img).2 then some "black"
    else none
  | false => none

/-! ## The detector

`detect_background_color` (convert.py lines 23-139). The environment
records whether `from PIL import Image` (line 33, before the `try`)
succeeds, the result of `ET.parse` (`none` models any parse or file
error, which the `except` on line 136 turns into the white default), and
the rendered preview (`none` models a rasterizer or image-load failure,
likewise caught and defaulted).
-/

/-- Everything outside the function that determines its behaviour. -/
structure DetectEnv where
  pilImportOk : Bool
  parseResult : Option SvgRoot
  renderResult : Option Preview

/-- convert.py lines 23-139. `Except.error` models an exception escaping
the function: only the PIL import on line 33 sits outside the
`try`/`except` and can do so. Every caught failure yields the default
white; otherwise the four stages run in order, first match winning. -/
def detect_background_color (env : DetectEnv) : Except String String :=
  match env.pilImportOk with
  | false => Except.error "ImportError: PIL"
  | true =>
    Except.ok
      (match env.parseResult with
       | none => "white"
       | some root =>
         match checkViewportFill (root.viewportFill.getD "") with
         | some c => c
         | none =>
           match checkStyle (root.style.getD "") with
           | some c => c
           | none =>
             match checkRects root root.rects with
             | some c => c
             | none =>
               match env.renderResult with
               | none => "white"
               | some img =>
                 match sampleCorners img with
                 | some c => c
                 | none => "white")

/-- Modelled from the spec's words for the refinement claim about the
detection priority order: the four stages listed first-to-last, first
match winning, defaulting to white. -/
def specDetectionPriority (root : SvgRoot) (rendered : Option Preview) : String :=
  match List.findSome? id
      [checkViewportFill (root.viewportFill.getD ""),
       checkStyle (root.style.getD ""),
       checkRects root root.rects,
       rendered.bind sampleCorners] with
  | some c => c
  | none => "white"


/-! ## Target constants

convert.py lines 16-21: 707mm x 1000mm at 300 DPI.
-/

/-- convert.py line 19. -/
def TARGET_WIDTH : Nat := 8350

/-- convert.py line 20. -/
def TARGET_HEIGHT : Nat := 11811

/-- convert.py line 21. -/
def TARGET_DPI : Nat := 300

/-- Nearest integer to the fraction `p / q` (for `0 < q`): the floor of
`(2p + q) / (2q)`. -/
def nearestInt (p q : Nat) : Nat :=
  (2 * p + q) / (2 * q)

/-- Modelled from the spec's words: pixels for a physical length of `mm`
millimeters at `dpi` dots per inch, an inch being 25.4 mm, rounded to the
nearest integer; `mm / 25.4 * dpi = (mm * dpi * 10) / 254`. -/
def mmToPixels (mm dpi : Nat) : Nat :=
  nearestInt (mm * dpi * 10) 254

/-! ## Abstract image model and external tools

The rasterizer and image processor are opaque collaborators invoked via
their command lines; we model an image as a pixel grid with a grayscale
flag and a density stamp, and each processor operation by its documented
geometric contract. The two binaries themselves are deterministic opaque
functions bundled in a `Tools` record.
-/

/-- A raster image: size, pixel grid (abstract pixel values), whether the
grayscale colorspace conversion has been applied, and the stamped
pixels-per-inch density, if any. -/
structure Img where
  width : Nat
  height : Nat
  pix : Nat → Nat → Nat
  gray : Bool
  density : Option Nat

/-- The external binaries as deterministic functions: `render svg w h bg`
is the pixel grid of the rasterizer's PNG for `svg` exported at `w` x `h`
with optional background `bg`; `grayOf` is the processor's per-pixel
grayscale map; `colorVal` the pixel value of a named background color. -/
structure Tools where
  render : String → Nat → Nat → Option String → Nat → Nat → Nat
  grayOf : Nat → Nat
  colorVal : String → Nat

/-- An `inkscape --export-type=png --export-width=w --export-height=h`
invocation: the rasterizer always emits a bitmap of exactly the requested
size, neither gray-converted nor density-stamped. -/
def inkscapeRender (T : Tools) (svg : String) (w h : Nat) (bg : Option String) : Img :=
  { width := w, height := h, pix := T.render svg w h bg, gray := false, density := none }

/-- The processor's `-gravity center -background bg -extent WxH`: a `W` x
`H` canvas with the source centered (integer offsets) and the rest filled
with the background pixel value. -/
def magickExtent (i : Img) (W H : Nat) (bg : Nat) : Img :=
  { width := W, height := H, gray := i.gray, density := i.density,
    pix := fun x y =>
      let ox := (W - i.width) / 2
      let oy := (H - i.height) / 2
      if ox ≤ x ∧ x < ox + i.width ∧ oy ≤ y ∧ y < oy + i.height then
        i.pix (x - ox) (y - oy)
      else bg }

/-- The processor's `-gravity center -crop WxH+0+0 +repage`: the `W` x
`H` subgrid at the centered (integer) offset. -/
def magickCropCenter (i : Img) (W H : Nat) : Img :=
  { width := W, height := H, gray := i.gray, density := i.density,
    pix := fun x y => i.pix (x + (i.width - W) / 2) (y + (i.height - H) / 2) }

/-- The processor's `-colorspace Gray`: per-pixel grayscale map. -/
def magickGray (g : Nat → Nat) (i : Img) : Img :=
  { i with gray := true, pix := fun x y => g (i.pix x y) }

/-- The processor's `-density d -units PixelsPerInch`: metadata stamp. -/
def magickDensity (d : Nat) (i : Img) : Img :=
  { i with density := some d }

/-- One step of a variant pipeline, one flag group of one external
command line. -/
inductive Step where
  | rasterize (w h : Nat) (bg : Option String)
  | extendCanvas (w h : Nat) (bg : String)
  | cropCenter (w h : Nat)
  | toGray
  | setDensity (d : Nat)
deriving DecidableEq

/-- Interpret one step over the current intermediate image (`none` before
the first rasterization). -/
def runStep (T : Tools) (svg : String) (acc : Option Img) : Step → Option Img
  | Step.rasterize w h bg => some (inkscapeRender T svg w h bg)
  | Step.extendCanvas w h bg => acc.map (fun i => magickExtent i w h (T.colorVal bg))
  | Step.cropCenter w h => acc.map (fun i => magickCropCenter i w h)
  | Step.toGray => acc.map (magickGray T.grayOf)
  | Step.setDensity d => acc.map (magickDensity d)

/-- Run a pipeline left to right. -/
def runSteps (T : Tools) (svg : String) (steps : List Step) : Option Img :=
  steps.foldl (runStep T svg) none

/-- The command sequence of `convert_centered` (convert.py lines 142-179):
rasterize at `TARGET_WIDTH` square with the background applied, extend to
the full canvas filled with the background, grayscale, stamp the DPI. -/
def centeredSteps (bg : String) : List Step :=
  [Step.rasterize TARGET_WIDTH TARGET_WIDTH (some bg),
   Step.extendCanvas TARGET_WIDTH TARGET_HEIGHT bg,
   Step.toGray,
   Step.setDensity TARGET_DPI]

/-- The command sequence of `convert_stretched` (convert.py lines
182-214): rasterize at exactly the target width and height, grayscale,
stamp the DPI. -/
def stretchedSteps : List Step :=
  [Step.rasterize TARGET_WIDTH TARGET_HEIGHT none,
   Step.toGray,
   Step.setDensity TARGET_DPI]

/-- The command sequence of `convert_cropped` (convert.py lines 217-266):
rasterize at `TARGET_HEIGHT` square, center-crop to the target size,
grayscale, stamp the DPI. -/
def croppedSteps : List Step :=
  [Step.rasterize TARGET_HEIGHT TARGET_HEIGHT none,
   Step.cropCenter TARGET_WIDTH TARGET_HEIGHT,
   Step.toGray,
   Step.setDensity TARGET_DPI]

/-- convert.py lines 142-179, denotationally. -/
def convert_centered (T : Tools) (svg bg : String) : Option Img :=
  runSteps T svg (centeredSteps bg)

/-- convert.py lines 182-214, denotationally. -/
def convert_stretched (T : Tools) (svg : String) : Option Img :=
  runSteps T svg stretchedSteps

/-- convert.py lines 217-266, denotationally. -/
def convert_cropped (T : Tools) (svg : String) : Option Img :=
  runSteps T svg croppedSteps

/-! ## Per-file processing and the batch driver -/

/-- `process_svg` (convert.py lines 269-317), output side: detect the
background (whose escaping exception, possible only when the PIL import
fails, is modelled by `none` since `main` would then abort), then emit
the three variant outputs under the stem-derived names. Only the centered
variant receives the detected background color. -/
def process_svg (T : Tools) (env : DetectEnv) (stem svg : String) :
    Option (List (String × Option Img)) :=
  match detect_background_color env with
  | Except.error _ => none
  | Except.ok bg =>
    some [(stem ++ "-centered.pdf", convert_centered T svg bg),
          (stem ++ "-stretched.pdf", convert_stretched T svg),
          (stem ++ "-cropped.pdf", convert_cropped T svg)]

/-- Writing a list of named outputs into an output directory, later
writes overwriting earlier content under the same name; the directory
maps a filename to its content, if present. -/
def writeOutputs (dir : String → Option (Option Img))
    (outs : List (String × Option Img)) : String → Option (Option Img) :=
  fun name =>
    match outs.find? (fun o => o.1 == name) with
    | some o => some o.2
    | none => dir name

/-! ## Failure isolation model

`process_svg` (convert.py lines 286-317) wraps each of the three variant
conversions in its own `try`/`except`; `main` (lines 320-347) loops the
whole of `process_svg` over every enumerated file. We model the outcome
of one variant attempt as data (success, external-tool nonzero exit with
optional captured stderr, or any other exception) and the handler code as
the log it prints.
-/

/-- Outcome of one variant conversion attempt: success, a
`subprocess.CalledProcessError` carrying optional stderr bytes, or any
other exception. Diagnostic text is a character list, as Python slicing
`[:500]` acts on. -/
inductive VariantOutcome where
  | success
  | toolError (stderr : Option (List Char))
  | exc (msg : List Char)

/-- One line printed for a variant by `process_svg`. -/
inductive LogLine where
  | created (variant : String)
  | failed (variant : String)
  | stderrOut (variant : String) (txt : List Char)
deriving DecidableEq

/-- The lines `process_svg` prints for one variant attempt (convert.py
lines 286-296 and the two analogous blocks): a success line, or an error
line followed, when a tool error captured stderr, by that stderr
truncated to 500 characters. -/
def variantLog (v : String) : VariantOutcome → List LogLine
  | VariantOutcome.success => [LogLine.created v]
  | VariantOutcome.toolError none => [LogLine.failed v]
  | VariantOutcome.toolError (some s) => [LogLine.failed v, LogLine.stderrOut v (s.take 500)]
  | VariantOutcome.exc _ => [LogLine.failed v]

/-- The full per-file log: the three variants are attempted one after the
other, each inside its own handler, so every outcome triple produces all
three reports (convert.py lines 286-317). -/
def process_svg_attempts (rs : VariantOutcome × VariantOutcome × VariantOutcome) :
    List LogLine :=
  variantLog "centered" rs.1 ++ variantLog "stretched" rs.2.1 ++ variantLog "cropped" rs.2.2

/-- The driver loop of `main` (convert.py lines 342-343): every
enumerated file is processed and reported. -/
def mainRun (jobs : List (String × (VariantOutcome × VariantOutcome × VariantOutcome))) :
    List (String × List LogLine) :=
  jobs.map (fun j => (j.1, process_svg_attempts j.2))

/-! ## Concrete instances used by the witnesses -/

/-- Concrete environment whose root carries `viewport-fill="black"`. -/
def rootBlackVF : SvgRoot :=
  { viewportFill := some "black", style := none, width := none, height := none, rects := [] }

/-- Detection environment for `rootBlackVF` with rendering unavailable. -/
def envBlackVF : DetectEnv :=
  { pilImportOk := true, parseResult := some rootBlackVF, renderResult := none }

/-- An SVG root with none of the attributes the detector inspects. -/
def emptyRoot : SvgRoot :=
  { viewportFill := none, style := none, width := none, height := none, rects := [] }

/-- A 100x100 preview without an alpha-channel mode, every pixel fully
opaque black. -/
def imgOpaqueDark : Preview :=
  { isRGBA := false, width := 100, height := 100,
    pixel := fun _ _ => { r := 0, g := 0, b := 0, a := 255 } }

/-- Detection environment whose preview is `imgOpaqueDark`. -/
def envOpaqueDark : DetectEnv :=
  { pilImportOk := true, parseResult := some emptyRoot,
    renderResult := some imgOpaqueDark }

/-- A 100x100 RGBA preview with every pixel fully transparent. -/
def imgTransparent : Preview :=
  { isRGBA := true, width := 100, height := 100,
    pixel := fun _ _ => { r := 255, g := 255, b := 255, a := 0 } }

/-- Detection environment whose preview is `imgTransparent`. -/
def envTransparent : DetectEnv :=
  { pilImportOk := true, parseResult := some emptyRoot,
    renderResult := some imgTransparent }

/-- Environment in which `from PIL import Image` fails. -/
def envNoPil : DetectEnv :=
  { pilImportOk := false, parseResult := none, renderResult := none }

/-- Concrete external tools: a constant rasterizer, identity grayscale,
zero background pixel. -/
def sampleTools : Tools :=
  { render := fun _ _ _ _ _ _ => 7, grayOf := fun n => n, colorVal := fun _ => 0 }

/-- An empty output directory. -/
def emptyDir : String → Option (Option Img) := fun _ => none

/-- The outputs of one run over `sampleTools` with a white detection. -/
def outsSample : List (String × Option Img) :=
  [("a" ++ "-centered.pdf", convert_centered sampleTools "in.svg" "white"),
   ("a" ++ "-stretched.pdf", convert_stretched sampleTools "in.svg"),
   ("a" ++ "-cropped.pdf", convert_cropped sampleTools "in.svg")]

/-- The outputs of one run over `sampleTools` with a black detection. -/
def outsSampleBlack : List (String × Option Img) :=
  [("a" ++ "-centered.pdf", convert_centered sampleTools "in.svg" "black"),
   ("a" ++ "-stretched.pdf", convert_stretched sampleTools "in.svg"),
   ("a" ++ "-cropped.pdf", convert_cropped sampleTools "in.svg")]

/-! ## Stage range lemmas -/

/-- Stage 1 can only decide white or black. -/
theorem checkViewportFill_range {s c : String} (h : checkViewportFill s = some c) :
    c = "white" ∨ c = "black" := by
  unfold checkViewportFill at h
  split_ifs at h <;> simp_all

/-- Stage 2 can only decide white or black. -/
theorem checkStyle_range {s c : String} (h : checkStyle s = some c) :
    c = "white" ∨ c = "black" := by
  unfold checkStyle at h
  split_ifs at h <;> simp_all

/-- Stage 3 can only decide white or black, for one rect. -/
theorem checkRect_range {root : SvgRoot} {r : SvgRect} {c : String}
    (h : checkRect root r = some c) : c = "white" ∨ c = "black" := by
  unfold checkRect at h
  split_ifs at h <;> simp_all

/-- Stage 3 can only decide white or black. -/
theorem checkRects_range {root : SvgRoot} {rs : List SvgRect} {c : String}
    (h : checkRects root rs = some c) : c = "white" ∨ c = "black" := by
  induction rs with
  | nil => simp [checkRects] at h
  | cons r rs ih =>
    unfold checkRects at h
    cases hr : checkRect root r with
    | some d => rw [hr] at h; exact checkRect_range (hr.trans (by simpa using h))
    | none => rw [hr] at h; exact ih h

/-- Stage 4 can only decide white or black. -/
theorem sampleCorners_range {img : Preview} {c : String}
    (h : sampleCorners img = some c) : c = "white" ∨ c = "black" := by
  unfold sampleCorners at h
  cases himg : img.isRGBA <;> rw [himg] at h
  · simp at h
  · split_ifs at h <;> simp_all

/-- The spec-side priority chain can only produce white or black. -/
theorem specDetectionPriority_range (root : SvgRoot) (rendered : Option Preview) :
    specDetectionPriority root rendered = "white" ∨
    specDetectionPriority root rendered = "black" := by
  unfold specDetectionPriority
  cases hvf : checkViewportFill (root.viewportFill.getD "") with
  | some c => simpa [List.findSome?, hvf] using checkViewportFill_range hvf
  | none =>
    cases hst : checkStyle (root.style.getD "") with
    | some c => simpa [List.findSome?, hvf, hst] using checkStyle_range hst
    | none =>
      cases hrc : checkRects root root.rects with
      | some c => simpa [List.findSome?, hvf, hst, hrc] using checkRects_range hrc
      | none =>
        cases rendered with
        | none => simp [List.findSome?, hvf, hst, hrc, Option.bind]
        | some img =>
          cases hsc : sampleCorners img with
          | some c =>
            simpa [List.findSome?, hvf, hst, hrc, Option.bind, hsc] using
              sampleCorners_range hsc
          | none => simp [List.findSome?, hvf, hst, hrc, Option.bind, hsc]

/-- Helper: with the PIL import succeeding and the document parsed, the
detector returns exactly the spec-side priority chain. -/
theorem detect_eq_specPriority (rend : Option Preview) (root : SvgRoot) :
    detect_background_color ⟨true, some root, rend⟩ =
      Except.ok (specDetectionPriority root rend) := by
  unfold detect_background_color specDetectionPriority
  cases hvf : checkViewportFill (root.viewportFill.getD "") with
  | some c => simp [List.findSome?, hvf]
  | none =>
    cases hst : checkStyle (root.style.getD "") with
    | some c => simp [List.findSome?, hvf, hst]
    | none =>
      cases hrc : checkRects root root.rects with
      | some c => simp [List.findSome?, hvf, hst, hrc]
      | none =>
        cases rend with
        | none => simp [List.findSome?, hvf, hst, hrc, Option.bind]
        | some img =>
          cases hsc : sampleCorners img with
          | some c => simp [List.findSome?, hvf, hst, hrc, Option.bind, hsc]
          | none => simp [List.findSome?, hvf, hst, hrc, Option.bind, hsc]

/-- C1: on any SVG input whose document parses (and with the detector's
PIL import available), `detect_background_color` applies the four
detection stages in the fixed priority order viewport-fill, root style
background, full-canvas origin rect fill, rendered corner sampling, with
the first deciding stage winning and a default of white, and its return
value is always exactly white or black. -/
theorem detect_background_priority_chain (env : DetectEnv) (root : SvgRoot)
    (h1 : env.pilImportOk = true) (h2 : env.parseResult = some root) :
    detect_background_color env =
      Except.ok (specDetectionPriority root env.renderResult) ∧
    (detect_background_color env = Except.ok "white" ∨
     detect_background_color env = Except.ok "black") := by
  obtain ⟨pil, parse, rend⟩ := env
  simp only at h1 h2
  subst h1; subst h2
  refine ⟨detect_eq_specPriority rend root, ?_⟩
  rw [detect_eq_specPriority rend root]
  rcases specDetectionPriority_range root rend with h | h <;> rw [h]
  · exact Or.inl rfl
  · exact Or.inr rfl

/-- Witness for C1 at a concrete input. -/
theorem detect_background_priority_chain_witness :
    envBlackVF.pilImportOk = true ∧ envBlackVF.parseResult = some rootBlackVF ∧
    (detect_background_color envBlackVF =
      Except.ok (specDetectionPriority rootBlackVF envBlackVF.renderResult) ∧
    (detect_background_color envBlackVF = Except.ok "white" ∨
     detect_background_color envBlackVF = Except.ok "black")) :=
  ⟨rfl, rfl, detect_background_priority_chain envBlackVF rootBlackVF rfl rfl⟩

/-! ## C2: the corner-sampling stage -/

/-- The classification loop counts each corner at most once. -/
theorem classify_foldl_bound (l : List Pix) : ∀ t d : Nat,
    (l.foldl classifyCorner (t, d)).1 + (l.foldl classifyCorner (t, d)).2 ≤
      t + d + l.length := by
  induction l with
  | nil => intro t d; simp
  | cons p l ih =>
    intro t d
    simp only [List.foldl_cons, List.length_cons]
    by_cases h1 : p.a < 128
    · rw [show classifyCorner (t, d) p = (t + 1, d) from by simp [classifyCorner, h1]]
      have := ih (t + 1) d
      omega
    · by_cases h2 : p.r + p.g + p.b < 192
      · rw [show classifyCorner (t, d) p = (t, d + 1) from by simp [classifyCorner, h1, h2]]
        have := ih t (d + 1)
        omega
      · rw [show classifyCorner (t, d) p = (t, d) from by simp [classifyCorner, h1, h2]]
        have := ih t d
        omega

/-- At most four corners are classified in total. -/
theorem cornerCounts_le_four (img : Preview) :
    (cornerCounts img).1 + (cornerCounts img).2 ≤ 4 := by
  have h := classify_foldl_bound (cornerPixels img) 0 0
  simpa [cornerCounts, cornerPixels] using h

/-- Counterexample to C2 as stated: a preview that does not carry the
RGBA mode has all four corners opaque with zero brightness, yet the
detector returns white, not black, because the sampling stage only runs
on RGBA-mode images. -/
theorem corner_sampling_skipped_without_alpha :
    imgOpaqueDark.isRGBA = false ∧
    (cornerCounts imgOpaqueDark).2 = 4 ∧
    detect_background_color envOpaqueDark = Except.ok "white" :=
  ⟨rfl, rfl, rfl⟩

/-- C2 as amended: in the sampling stage, for every preview image in
RGBA mode (reached when stages 1-3 decide nothing), at least 3
transparent corners yield white, otherwise at least 3 opaque dark
corners yield black, otherwise the default white; the two counts cover
the four corners disjointly, so at least 3 dark corners alone already
force black. Previews not in RGBA mode skip sampling entirely. -/
theorem corner_sampling_rgba_thresholds (env : DetectEnv) (root : SvgRoot) (img : Preview)
    (hp : env.pilImportOk = true) (hr : env.parseResult = some root)
    (h1 : checkViewportFill (root.viewportFill.getD "") = none)
    (h2 : checkStyle (root.style.getD "") = none)
    (h3 : checkRects root root.rects = none)
    (h4 : env.renderResult = some img)
    (h5 : img.isRGBA = true) :
    detect_background_color env =
      Except.ok (if 3 ≤ (cornerCounts img).1 then "white"
                 else if 3 ≤ (cornerCounts img).2 then "black" else "white") ∧
    (cornerCounts img).1 + (cornerCounts img).2 ≤ 4 := by
  obtain ⟨pil, parse, rend⟩ := env
  simp only at hp hr h4
  subst hp; subst hr; subst h4
  refine ⟨?_, cornerCounts_le_four img⟩
  simp only [detect_background_color, h1, h2, h3, sampleCorners, h5]
  split_ifs <;> rfl

/-- Witness for the amended C2 at a concrete RGBA preview. -/
theorem corner_sampling_rgba_thresholds_witness :
    envTransparent.pilImportOk = true ∧
    envTransparent.parseResult = some emptyRoot ∧
    checkViewportFill (emptyRoot.viewportFill.getD "") = none ∧
    checkStyle (emptyRoot.style.getD "") = none ∧
    checkRects emptyRoot emptyRoot.rects = none ∧
    envTransparent.renderResult = some imgTransparent ∧
    imgTransparent.isRGBA = true ∧
    (detect_background_color envTransparent =
      Except.ok (if 3 ≤ (cornerCounts imgTransparent).1 then "white"
                 else if 3 ≤ (cornerCounts imgTransparent).2 then "black" else "white") ∧
    (cornerCounts imgTransparent).1 + (cornerCounts imgTransparent).2 ≤ 4) :=
  ⟨rfl, rfl, rfl, rfl, rfl, rfl, rfl,
   corner_sampling_rgba_thresholds envTransparent emptyRoot imgTransparent
     rfl rfl rfl rfl rfl rfl rfl⟩

/-! ## C3: exception behaviour of the detector -/

/-- Counterexample to C3 as stated: the `from PIL import Image` on
convert.py line 33 sits before the `try` of line 35, so its failure
escapes `detect_background_color` as an exception instead of being
logged and defaulted to white. -/
theorem detect_import_failure_raises :
    detect_background_color envNoPil = Except.error "ImportError: PIL" ∧
    (detect_background_color envNoPil).isOk = false :=
  ⟨rfl, rfl⟩

/-- Helper: with the PIL import available, the detector always returns
normally. -/
theorem detect_isOk_of_pil (env : DetectEnv) (h : env.pilImportOk = true) :
    (detect_background_color env).isOk = true := by
  obtain ⟨pil, parse, rend⟩ := env
  simp only at h
  subst h
  rfl

/-- C3 as amended: every failure inside the function body (XML parsing,
file access, rendering, image loading) is caught and defaulted, so
whenever the PIL import itself succeeds the detector returns normally,
and a parse failure in particular returns white; only a failure of the
`from PIL import Image` on line 33, which precedes the `try` block,
escapes as an exception. -/
theorem detect_no_raise_after_import (env : DetectEnv) (h : env.pilImportOk = true) :
    (detect_background_color env).isOk = true ∧
    detect_background_color
      { pilImportOk := true, parseResult := none, renderResult := env.renderResult } =
      Except.ok "white" ∧
    detect_background_color
      { pilImportOk := true, parseResult := some emptyRoot, renderResult := none } =
      Except.ok "white" :=
  ⟨detect_isOk_of_pil env h, rfl, rfl⟩

/-- Witness for the amended C3 at a concrete environment. -/
theorem detect_no_raise_after_import_witness :
    envTransparent.pilImportOk = true ∧
    ((detect_background_color envTransparent).isOk = true ∧
    detect_background_color
      { pilImportOk := true, parseResult := none,
        renderResult := envTransparent.renderResult } = Except.ok "white" ∧
    detect_background_color
      { pilImportOk := true, parseResult := some emptyRoot, renderResult := none } =
      Except.ok "white") :=
  ⟨rfl, detect_no_raise_after_import envTransparent rfl⟩

/-! ## C5-C7: the three variant pipelines -/

/-- C5: the centered variant rasterizes the SVG to a `TARGET_WIDTH`
square with the detected background color applied, extends the canvas to
`TARGET_WIDTH` x `TARGET_HEIGHT` filling with that background color with
the square centered (vertical offset `(TARGET_HEIGHT - TARGET_WIDTH)/2`),
converts to grayscale, and stamps `TARGET_DPI` pixels per inch on the
output. -/
theorem convert_centered_pipeline (T : Tools) (svg bg : String) (x y : Nat) :
    ∃ i, convert_centered T svg bg = some i ∧
      i.width = TARGET_WIDTH ∧ i.height = TARGET_HEIGHT ∧
      i.gray = true ∧ i.density = some TARGET_DPI ∧
      i.pix x y =
        T.grayOf (if x < TARGET_WIDTH ∧ (TARGET_HEIGHT - TARGET_WIDTH) / 2 ≤ y ∧
                      y < (TARGET_HEIGHT - TARGET_WIDTH) / 2 + TARGET_WIDTH then
                    T.render svg TARGET_WIDTH TARGET_WIDTH (some bg) x
                      (y - (TARGET_HEIGHT - TARGET_WIDTH) / 2)
                  else T.colorVal bg) := by
  refine ⟨_, rfl, rfl, rfl, rfl, rfl, ?_⟩
  show (magickDensity TARGET_DPI (magickGray T.grayOf
      (magickExtent (inkscapeRender T svg TARGET_WIDTH TARGET_WIDTH (some bg))
        TARGET_WIDTH TARGET_HEIGHT (T.colorVal bg)))).pix x y = _
  simp only [magickDensity, magickGray, magickExtent, inkscapeRender]
  congr 1
  apply if_congr
  · omega
  · rw [show x - (TARGET_WIDTH - TARGET_WIDTH) / 2 = x from by omega]
  · rfl

/-- C6: the cropped variant rasterizes the SVG to a `TARGET_HEIGHT`
square, crops it about the horizontal center to `TARGET_WIDTH` x
`TARGET_HEIGHT` (horizontal offset `(TARGET_HEIGHT - TARGET_WIDTH)/2`,
the vertical crop being trivial), converts to grayscale, and stamps
`TARGET_DPI` pixels per inch on the output. -/
theorem convert_cropped_pipeline (T : Tools) (svg : String) (x y : Nat) :
    ∃ i, convert_cropped T svg = some i ∧
      i.width = TARGET_WIDTH ∧ i.height = TARGET_HEIGHT ∧
      i.gray = true ∧ i.density = some TARGET_DPI ∧
      i.pix x y = T.grayOf (T.render svg TARGET_HEIGHT TARGET_HEIGHT none
        (x + (TARGET_HEIGHT - TARGET_WIDTH) / 2) y) := by
  refine ⟨_, rfl, rfl, rfl, rfl, rfl, ?_⟩
  show (magickDensity TARGET_DPI (magickGray T.grayOf
      (magickCropCenter (inkscapeRender T svg TARGET_HEIGHT TARGET_HEIGHT none)
        TARGET_WIDTH TARGET_HEIGHT))).pix x y = _
  simp only [magickDensity, magickGray, magickCropCenter, inkscapeRender]
  rw [show y + (TARGET_HEIGHT - TARGET_HEIGHT) / 2 = y from by omega]

/-- C7: the stretched variant rasterizes the SVG directly to exactly
`TARGET_WIDTH` x `TARGET_HEIGHT` pixels with no background argument and
no geometric post-processing, converts to grayscale, and stamps
`TARGET_DPI` pixels per inch on the output. -/
theorem convert_stretched_pipeline (T : Tools) (svg : String) (x y : Nat) :
    ∃ i, convert_stretched T svg = some i ∧
      i.width = TARGET_WIDTH ∧ i.height = TARGET_HEIGHT ∧
      i.gray = true ∧ i.density = some TARGET_DPI ∧
      i.pix x y = T.grayOf (T.render svg TARGET_WIDTH TARGET_HEIGHT none x y) :=
  ⟨_, rfl, rfl, rfl, rfl, rfl, rfl⟩

/-! ## C4: failure isolation -/

/-- Every variant attempt produces at least its success-or-failure report
line, whatever its outcome. -/
theorem variantLog_ne_nil (v : String) (r : VariantOutcome) : variantLog v r ≠ [] := by
  cases r with
  | success => simp [variantLog]
  | toolError o => cases o <;> simp [variantLog]
  | exc m => simp [variantLog]

/-- C4: each of the three variants is attempted independently per file:
whatever the outcomes, the per-file log is the concatenation of one
nonempty report per variant in order (so no failure suppresses a later
variant); a tool error's captured stderr is logged truncated to at most
500 characters; and the driver processes and reports every enumerated
file. -/
theorem variant_failure_isolation
    (rs : VariantOutcome × VariantOutcome × VariantOutcome)
    (jobs : List (String × (VariantOutcome × VariantOutcome × VariantOutcome)))
    (v : String) (s : List Char) :
    process_svg_attempts rs =
      variantLog "centered" rs.1 ++ variantLog "stretched" rs.2.1 ++
        variantLog "cropped" rs.2.2 ∧
    variantLog "centered" rs.1 ≠ [] ∧
    variantLog "stretched" rs.2.1 ≠ [] ∧
    variantLog "cropped" rs.2.2 ≠ [] ∧
    variantLog v (VariantOutcome.toolError (some s)) =
      [LogLine.failed v, LogLine.stderrOut v (s.take 500)] ∧
    (s.take 500).length ≤ 500 ∧
    (mainRun jobs).map Prod.fst = jobs.map Prod.fst ∧
    (mainRun jobs).length = jobs.length := by
  refine ⟨rfl, variantLog_ne_nil _ _, variantLog_ne_nil _ _, variantLog_ne_nil _ _,
    rfl, ?_, ?_, ?_⟩
  · simp [List.length_take]
  · simp [mainRun]
  · simp [mainRun]

/-! ## C8: output names and idempotent overwriting -/

/-- Writing the same outputs a second time changes nothing. -/
theorem writeOutputs_idem (dir : String → Option (Option Img))
    (outs : List (String × Option Img)) :
    writeOutputs (writeOutputs dir outs) outs = writeOutputs dir outs := by
  funext name
  unfold writeOutputs
  cases h : outs.find? (fun o => o.1 == name) <;> simp [h]

/-- C8: a successful run of `process_svg` on a file with stem `stem`
writes exactly the three names `stem ++ "-centered.pdf"`,
`stem ++ "-stretched.pdf"`, `stem ++ "-cropped.pdf"`, and re-running the
same deterministic pipeline overwrites them with identical content:
writing its outputs a second time leaves the output directory unchanged. -/
theorem process_svg_output_names_idempotent (T : Tools) (env : DetectEnv)
    (stem svg : String) (outs : List (String × Option Img))
    (dir : String → Option (Option Img))
    (hout : process_svg T env stem svg = some outs) :
    outs.map Prod.fst =
      [stem ++ "-centered.pdf", stem ++ "-stretched.pdf", stem ++ "-cropped.pdf"] ∧
    writeOutputs (writeOutputs dir outs) outs = writeOutputs dir outs := by
  unfold process_svg at hout
  cases hdet : detect_background_color env with
  | error e => rw [hdet] at hout; simp at hout
  | ok bg =>
    rw [hdet] at hout
    simp only [Option.some.injEq] at hout
    subst hout
    exact ⟨rfl, writeOutputs_idem dir _⟩

/-- Witness for C8 at a concrete run. -/
theorem process_svg_output_names_idempotent_witness :
    process_svg sampleTools envTransparent "a" "in.svg" = some outsSample ∧
    (outsSample.map Prod.fst =
      ["a" ++ "-centered.pdf", "a" ++ "-stretched.pdf", "a" ++ "-cropped.pdf"] ∧
    writeOutputs (writeOutputs emptyDir outsSample) outsSample =
      writeOutputs emptyDir outsSample) :=
  ⟨rfl, process_svg_output_names_idempotent sampleTools envTransparent "a" "in.svg"
    outsSample emptyDir rfl⟩

/-! ## C9: the target constants -/

/-- C9: the fixed pixel dimensions match the stated physical size at the
stated resolution. `TARGET_WIDTH = 8350` is the nearest integer to
707 mm / 25.4 mm-per-inch * 300 DPI (equivalently, it is within half a
denominator of `707 * 300 * 10 / 254`), `TARGET_HEIGHT = 11811` likewise
for 1000 mm, `TARGET_DPI = 300`, and every variant pipeline carries its
geometry and density steps at exactly these constants. -/
theorem target_dimension_constants (bg : String) :
    TARGET_WIDTH = 8350 ∧ TARGET_HEIGHT = 11811 ∧ TARGET_DPI = 300 ∧
    mmToPixels 707 TARGET_DPI = TARGET_WIDTH ∧
    mmToPixels 1000 TARGET_DPI = TARGET_HEIGHT ∧
    TARGET_WIDTH * 254 ≤ 707 * TARGET_DPI * 10 + 127 ∧
    707 * TARGET_DPI * 10 ≤ TARGET_WIDTH * 254 + 127 ∧
    TARGET_HEIGHT * 254 ≤ 1000 * TARGET_DPI * 10 + 127 ∧
    1000 * TARGET_DPI * 10 ≤ TARGET_HEIGHT * 254 + 127 ∧
    Step.rasterize TARGET_WIDTH TARGET_WIDTH (some bg) ∈ centeredSteps bg ∧
    Step.extendCanvas TARGET_WIDTH TARGET_HEIGHT bg ∈ centeredSteps bg ∧
    Step.setDensity TARGET_DPI ∈ centeredSteps bg ∧
    Step.rasterize TARGET_WIDTH TARGET_HEIGHT none ∈ stretchedSteps ∧
    Step.setDensity TARGET_DPI ∈ stretchedSteps ∧
    Step.rasterize TARGET_HEIGHT TARGET_HEIGHT none ∈ croppedSteps ∧
    Step.cropCenter TARGET_WIDTH TARGET_HEIGHT ∈ croppedSteps ∧
    Step.setDensity TARGET_DPI ∈ croppedSteps := by
  refine ⟨rfl, rfl, rfl, by decide, by decide, by decide, by decide, by decide,
    by decide, ?_, ?_, ?_, ?_, ?_, ?_, ?_, ?_⟩ <;>
    simp [centeredSteps, stretchedSteps, croppedSteps]

/-! ## C10: the background decision only reaches the centered variant -/

/-- C10: whatever two background-detection outcomes two successful runs
over the same tools and input see, their stretched and cropped outputs
are identical entries (and all three filenames agree): only the centered
variant receives the detected background color. -/
theorem background_only_affects_centered (T : Tools) (env1 env2 : DetectEnv)
    (stem svg : String) (l1 l2 : List (String × Option Img))
    (h1 : process_svg T env1 stem svg = some l1)
    (h2 : process_svg T env2 stem svg = some l2) :
    l1.drop 1 = l2.drop 1 ∧ l1.map Prod.fst = l2.map Prod.fst := by
  unfold process_svg at h1 h2
  cases hd1 : detect_background_color env1 with
  | error e => rw [hd1] at h1; simp at h1
  | ok b1 =>
    cases hd2 : detect_background_color env2 with
    | error e => rw [hd2] at h2; simp at h2
    | ok b2 =>
      rw [hd1] at h1
      rw [hd2] at h2
      simp only [Option.some.injEq] at h1 h2
      subst h1
      subst h2
      exact ⟨by simp, by simp⟩

/-- Witness for C10 at two concrete runs whose detections differ (white
for a transparent preview, black for an explicit viewport-fill). -/
theorem background_only_affects_centered_witness :
    process_svg sampleTools envTransparent "a" "in.svg" = some outsSample ∧
    process_svg sampleTools envBlackVF "a" "in.svg" = some outsSampleBlack ∧
    (outsSample.drop 1 = outsSampleBlack.drop 1 ∧
     outsSample.map Prod.fst = outsSampleBlack.map Prod.fst) :=
  ⟨rfl, rfl, background_only_affects_centered sampleTools envTransparent envBlackVF
    "a" "in.svg" outsSample outsSampleBlack rfl rfl⟩
